import Mathlib

/-!
Verification of the IRT / adaptive-testing core of the StudyGPT repository
(`ml-backend/models/irt_model.py`) against its natural-language specification.

Python floats are modelled as real numbers; Python dicts as insertion-ordered
association lists with unique keys (`PyDict`); `scipy.special.expit` as the
logistic function; fallible paths return explicit error values.
-/

namespace StudyGPT

/-- A Python dict with string keys: an insertion-ordered association list.
Insertion of a fresh key appends at the end; overwriting keeps the position,
mirroring CPython dict semantics (which the calibration loop relies on for
its iteration order). -/
abbrev PyDict (α : Type) := List (String × α)

/-- Models `d.get(k)` / `k in d`: the value at the first (unique) matching key. -/
def PyDict.get? {α : Type} : PyDict α → String → Option α
  | [], _ => none
  | (k, v) :: rest, key => if k = key then some v else PyDict.get? rest key

/-- Models `d[k] = v`: replace in place when the key exists, append otherwise. -/
def PyDict.set {α : Type} : PyDict α → String → α → PyDict α
  | [], key, v => [(key, v)]
  | (k, w) :: rest, key, v =>
      if k = key then (k, v) :: rest else (k, w) :: PyDict.set rest key v

/-- The per-item IRT parameters stored in the catalog
(`item_parameters[item_id]` dict with keys difficulty / discrimination /
guessing, src lines 148-152 and 163-167). -/
structure ItemParams where
  difficulty : ℝ
  discrimination : ℝ
  guessing : ℝ

/-- State of the `ItemResponseTheory` class (src lines 73-75). -/
structure ItemResponseTheory where
  item_parameters : PyDict ItemParams
  student_abilities : PyDict ℝ

/-- The freshly constructed `ItemResponseTheory()` object: both dicts empty. -/
def ItemResponseTheory.init : ItemResponseTheory := ⟨[], []⟩

/-- Models `scipy.special.expit`: the logistic function 1 / (1 + exp(-x)). -/
noncomputable def expit (x : ℝ) : ℝ := 1 / (1 + Real.exp (-x))

/-- Models `ItemResponseTheory.probability_correct_3pl` (src lines 77-98):
`prob = guessing + (1 - guessing) * expit(discrimination * (ability - difficulty))`.
The method reads no instance state, so it is modelled as a pure function. -/
noncomputable def probability_correct_3pl
    (ability difficulty discrimination guessing : ℝ) : ℝ :=
  guessing + (1 - guessing) * expit (discrimination * (ability - difficulty))

/-- The default parameters lazily assigned by `get_item_parameters`
(src lines 148-152): difficulty 0.0, discrimination 1.0, guessing 0.25. -/
noncomputable def defaultItemParams : ItemParams := ⟨0, 1, 1/4⟩

/-- Models `ItemResponseTheory.get_item_parameters` (src lines 145-153):
returns the stored entry, or inserts and returns the defaults.  The second
component is the possibly-grown catalog state (`self` after the call). -/
noncomputable def ItemResponseTheory.get_item_parameters
    (irt : ItemResponseTheory) (item_id : String) :
    ItemParams × ItemResponseTheory :=
  match PyDict.get? irt.item_parameters item_id with
  | some p => (p, irt)
  | none =>
      (defaultItemParams,
       { irt with item_parameters :=
           PyDict.set irt.item_parameters item_id defaultItemParams })

/-- The value `get_item_parameters` returns for an id: the stored entry or the
defaults.  Pure view of the same source lines, used where the Python code only
consumes the returned value. -/
noncomputable def ItemResponseTheory.get_item_parameters_val
    (irt : ItemResponseTheory) (item_id : String) : ItemParams :=
  (PyDict.get? irt.item_parameters item_id).getD defaultItemParams

/-- Models `ItemResponseTheory.set_item_parameters` (src lines 155-167):
stores the three values verbatim under `item_id`.  Note the source performs
no validation of discrimination or guessing. -/
def ItemResponseTheory.set_item_parameters
    (irt : ItemResponseTheory) (item_id : String)
    (difficulty discrimination guessing : ℝ) : ItemResponseTheory :=
  let entry : ItemParams := ⟨difficulty, discrimination, guessing⟩
  { irt with item_parameters := PyDict.set irt.item_parameters item_id entry }

/-- Models `ItemResponseTheory.get_student_ability` (src lines 210-212):
`self.student_abilities.get(student_id, 0.0)`. -/
def ItemResponseTheory.get_student_ability
    (irt : ItemResponseTheory) (student_id : String) : ℝ :=
  (PyDict.get? irt.student_abilities student_id).getD 0

/-- Exceptions the source can raise on the modelled paths.
`indexError` models the `IndexError` raised by `available_items[0]` on an
empty list (src line 264); `attributeError` models the `AttributeError`
raised by reading `self.item_bank`, an attribute no method ever assigns
(src line 533).  `noItemsAvailableError` is the `NoItemsAvailableError`
named by the specification error taxonomy; no class of that name exists
anywhere in the source — the constructor exists only so that statements
about it can be written down. -/
inductive PyErr where
  | indexError
  | attributeError
  | noItemsAvailableError
deriving DecidableEq

/-- Models `np.clip(x, lo, hi)`: values below `lo` map to `lo`, above `hi`
to `hi`. -/
noncomputable def np_clip (x lo hi : ℝ) : ℝ := min (max x lo) hi

/-- Models the inner closure `negative_log_likelihood` of
`ItemResponseTheory.estimate_ability` (src lines 113-133) as a function of
the ability: sum over responses of minus the log of the (clipped)
probability assigned to the observed outcome.  The Python closure also
lazily inserts default parameters for unseen items via
`self.get_item_parameters`; that state effect does not change the value any
lookup returns (`get_item_parameters_val_touch`) and is threaded separately
by `estimate_ability` below. -/
noncomputable def ItemResponseTheory.negative_log_likelihood
    (irt : ItemResponseTheory) (responses : List (String × Bool))
    (ability : ℝ) : ℝ :=
  responses.foldl (fun nll r =>
    let params := irt.get_item_parameters_val r.1
    let prob := probability_correct_3pl ability
      params.difficulty params.discrimination params.guessing
    let prob2 := np_clip prob (1 / 10 ^ 10) (1 - 1 / 10 ^ 10)
    if r.2 then nll - Real.log prob2 else nll - Real.log (1 - prob2)) 0

/-- The catalog growth caused by the likelihood evaluations: every item id
occurring in the responses is touched by `get_item_parameters`. -/
noncomputable def ItemResponseTheory.touch_items
    (irt : ItemResponseTheory) (responses : List (String × Bool)) :
    ItemResponseTheory :=
  responses.foldl (fun st r => (st.get_item_parameters r.1).2) irt

/-- Models `ItemResponseTheory.estimate_ability` (src lines 100-143).  The
call to `scipy.optimize.minimize(..., method=BFGS, maxiter=100)` is modelled
by an explicit optimizer parameter `opt`: the theorems assume only its
documented termination behavior.  The result is `float(result.x[0])`
together with the catalog state after the likelihood evaluations. -/
noncomputable def ItemResponseTheory.estimate_ability
    (opt : (ℝ → ℝ) → ℝ → ℝ) (irt : ItemResponseTheory)
    (responses : List (String × Bool)) (initial_ability : ℝ) :
    ℝ × ItemResponseTheory :=
  (opt (fun ability => irt.negative_log_likelihood responses ability)
      initial_ability,
   irt.touch_items responses)

/-- Models `ItemResponseTheory.update_student_ability` (src lines 214-223):
re-estimate from the full response history, warm-started at the stored
ability, and store the new estimate. -/
noncomputable def ItemResponseTheory.update_student_ability
    (opt : (ℝ → ℝ) → ℝ → ℝ) (irt : ItemResponseTheory)
    (student_id : String) (responses : List (String × Bool)) :
    ℝ × ItemResponseTheory :=
  let current_ability := irt.get_student_ability student_id
  let res := irt.estimate_ability opt responses current_ability
  (res.1,
   { res.2 with
       student_abilities := PyDict.set res.2.student_abilities student_id res.1 })

/-- The Fisher information the selection loop computes for one item
(src lines 247-258), as a value: `a^2 * (q/p) * (p-c)^2 / (1-c)^2` at the
stored-or-default parameters of the item. -/
noncomputable def ItemResponseTheory.item_information
    (irt : ItemResponseTheory) (ability : ℝ) (item_id : String) : ℝ :=
  let params := irt.get_item_parameters_val item_id
  let prob := probability_correct_3pl ability
    params.difficulty params.discrimination params.guessing
  let q := 1 - prob
  params.discrimination ^ 2 * (q / prob) * (prob - params.guessing) ^ 2 /
    (1 - params.guessing) ^ 2

/-- The `for item_id in available_items` loop of `select_next_item`
(src lines 243-262): running best item and best information, starting from
`best_item = None`, `best_info = 0`, updating only on a strictly greater
information value.  The catalog state is threaded because
`get_item_parameters` may insert defaults. -/
noncomputable def select_loop (ability : ℝ) :
    ItemResponseTheory → List String → Option String → ℝ →
      Option String × ItemResponseTheory
  | irt, [], best_item, _best_info => (best_item, irt)
  | irt, item_id :: rest, best_item, best_info =>
      let pr := irt.get_item_parameters item_id
      let params := pr.1
      let prob := probability_correct_3pl ability
        params.difficulty params.discrimination params.guessing
      let q := 1 - prob
      let info := params.discrimination ^ 2 * (q / prob) *
        (prob - params.guessing) ^ 2 / (1 - params.guessing) ^ 2
      if best_info < info then select_loop ability pr.2 rest (some item_id) info
      else select_loop ability pr.2 rest best_item best_info

/-- Models `ItemResponseTheory.select_next_item` (src lines 225-264).  The
final `return best_item if best_item else available_items[0]` uses Python
truthiness: it falls back to `available_items[0]` both when `best_item` is
`None` and when it is the empty string, and that index access raises
`IndexError` on an empty list. -/
noncomputable def ItemResponseTheory.select_next_item
    (irt : ItemResponseTheory) (student_id : String)
    (available_items : List String) :
    Except PyErr String × ItemResponseTheory :=
  let ability := irt.get_student_ability student_id
  let res := select_loop ability irt available_items none 0
  let fallback : Except PyErr String :=
    match available_items with
    | [] => Except.error PyErr.indexError
    | x :: _ => Except.ok x
  match res.1 with
  | some best => (if best = "" then fallback else Except.ok best, res.2)
  | none => (fallback, res.2)

/-- Models the record dicts fed to `calibrate_items`
(src lines 169-189): `item_id` and `correct`; `response.get("correct",
False)` defaults a missing value to `False`, and `student_id` is never read.
A record whose `item_id` key is missing would group under the Python `None`
key; the claims only quantify over ids that appear, so such records are not
modelled. -/
structure CalibrationRecord where
  item_id : String
  correct : Bool

/-- Models the grouping loop of `calibrate_items` (src lines 179-189):
`item_responses[item_id]` starts at `[]` on first sight and each `correct`
flag is appended, so keys appear in order of first occurrence. -/
def group_responses : List CalibrationRecord → PyDict (List Bool) →
    PyDict (List Bool)
  | [], acc => acc
  | r :: rest, acc =>
      group_responses rest
        (PyDict.set acc r.item_id
          ((PyDict.get? acc r.item_id).getD [] ++ [r.correct]))

/-- Models `np.mean` on a list of booleans: the proportion of `True`.
The source only applies it to the nonempty per-item groups. -/
noncomputable def np_mean (l : List Bool) : ℝ :=
  (l.map (fun b => if b then (1:ℝ) else 0)).sum / l.length

open Classical in
/-- The body of the per-item loop of `calibrate_items` (src lines 192-208):
clamp the proportion correct into `[0.01, 0.99]` with the two `if`
statements, set `difficulty = -log(p/(1-p))`, and store the entry with the
default `discrimination = 1.0` and `guessing = 0.25`. -/
noncomputable def calibrate_step (st : ItemResponseTheory)
    (entry : String × List Bool) : ItemResponseTheory :=
  let p_correct := np_mean entry.2
  let p1 := if p_correct > 99/100 then 99/100 else p_correct
  let p2 := if p1 < 1/100 then 1/100 else p1
  let difficulty := -Real.log (p2 / (1 - p2))
  st.set_item_parameters entry.1 difficulty 1 (1/4)

/-- Models `ItemResponseTheory.calibrate_items` (src lines 169-208):
group the records by item, then run the calibration step over the groups in
insertion order. -/
noncomputable def ItemResponseTheory.calibrate_items
    (irt : ItemResponseTheory) (response_data : List CalibrationRecord) :
    ItemResponseTheory :=
  (group_responses response_data []).foldl calibrate_step irt

/-- The test types of the `TestType` enum (src lines 8-12). -/
inductive TestType where
  | learning_adaptive
  | topic_wise
  | sectional_mock
  | full_mock_ssc

/-- One adaptive-test session as read by the `SSCAdaptiveTesting` session
operations: the dict keys actually accessed are `student_id`,
`items_administered`, `responses`, `num_items`, `current_ability` and
`se_ability` (src lines 525-628).  No method of the class ever creates such
a session, so any populated registry is hypothetical state. -/
structure CATSession where
  student_id : String
  items_administered : List String
  responses : List (String × Bool)
  num_items : ℕ
  current_ability : ℝ
  se_ability : ℝ

/-- State of the `SSCAdaptiveTesting` class (src lines 273-276): the IRT
engine and the (never written) session registry.  The `ssc_pattern`
attribute holds static exam-pattern constants read only by the test-payload
construction, which no claim depends on; it is not modelled. -/
structure SSCAdaptiveTesting where
  irt : ItemResponseTheory
  test_sessions : PyDict CATSession

/-- The freshly constructed `SSCAdaptiveTesting()` object: fresh IRT engine
and an empty `test_sessions` dict.  Note `__init__` does not create an
`item_bank` attribute. -/
def SSCAdaptiveTesting.init : SSCAdaptiveTesting := ⟨ItemResponseTheory.init, []⟩

/-- Models the state effect of `SSCAdaptiveTesting.generate_test`
(src lines 278-294) together with its entire call tree
(`_generate_full_mock_ssc`, `_generate_learning_adaptive`,
`_select_questions_for_section`, `_get_questions_by_difficulty`,
`_get_ssc_instructions`, `_get_general_ssc_instructions`,
src lines 296-523): those methods build and return a test-structure
dictionary from `self.ssc_pattern` and the arguments and never read or
assign `self.test_sessions`, `self.irt` or any other attribute (the
`TOPIC_WISE` and `SECTIONAL_MOCK` branches call methods that do not exist
and raise `AttributeError`, which also leaves the state unchanged).  The
returned payload is irrelevant to every claim and is not modelled; the
state effect is the identity. -/
def SSCAdaptiveTesting.generate_test (s : SSCAdaptiveTesting)
    (_test_type : TestType) (_user_id : String) (_user_mastery : PyDict ℝ) :
    SSCAdaptiveTesting := s

/-- Models `SSCAdaptiveTesting.get_next_item` (src lines 525-542): a missing
(or falsy) session returns `None` (lines 527-529); on a present session the
code reads `self.item_bank` (line 533), an attribute `__init__` never
creates and no method ever assigns, so the call raises `AttributeError`. -/
def SSCAdaptiveTesting.get_next_item (s : SSCAdaptiveTesting)
    (test_id : String) : Except PyErr (Option String) × SSCAdaptiveTesting :=
  match PyDict.get? s.test_sessions test_id with
  | none => (Except.ok none, s)
  | some _ => (Except.error PyErr.attributeError, s)

/-- Return value of `submit_response`: either the
`{"error": "Test session not found"}` dict — an ordinary return value, no
exception — or the updated-state dict of src lines 575-583. -/
inductive SubmitResult where
  | errorDict (msg : String)
  | result (ability_estimate : ℝ) (standard_error : ℝ) (num_items : ℕ)
      (confidence_interval : ℝ × ℝ)

/-- Models `SSCAdaptiveTesting.submit_response` (src lines 544-583): on a
missing session, return the error dict unchanged-state (lines 554-556);
otherwise append the response, bump `num_items`, re-estimate the ability
over the full history (through `update_student_ability`, which also updates
`self.irt`), set `se = 1/sqrt(num_items)`, and return the update dict with
the 1.96-sigma confidence interval. -/
noncomputable def SSCAdaptiveTesting.submit_response
    (opt : (ℝ → ℝ) → ℝ → ℝ) (s : SSCAdaptiveTesting)
    (test_id item_id : String) (is_correct : Bool) :
    SubmitResult × SSCAdaptiveTesting :=
  match PyDict.get? s.test_sessions test_id with
  | none => (SubmitResult.errorDict "Test session not found", s)
  | some session =>
      let session1 : CATSession :=
        { session with
            items_administered := session.items_administered ++ [item_id],
            responses := session.responses ++ [(item_id, is_correct)],
            num_items := session.num_items + 1 }
      let upd := s.irt.update_student_ability opt session1.student_id
        session1.responses
      let new_ability := upd.1
      let se := 1 / Real.sqrt (session1.num_items : ℝ)
      let session2 : CATSession :=
        { session1 with current_ability := new_ability, se_ability := se }
      (SubmitResult.result new_ability se session2.num_items
          (new_ability - 1.96 * se, new_ability + 1.96 * se),
       { s with
           irt := upd.2,
           test_sessions := PyDict.set s.test_sessions test_id session2 })

open Classical in
/-- Models `SSCAdaptiveTesting.should_terminate` (src lines 585-613): a
missing session yields `True` (lines 595-597); otherwise `False` below
`min_items`, `True` at or above `max_items`, `True` once the stored standard
error is at most `target_se`, else `False`.  Purely a read; no state
change. -/
noncomputable def SSCAdaptiveTesting.should_terminate
    (s : SSCAdaptiveTesting) (test_id : String)
    (min_items max_items : ℕ) (target_se : ℝ) : Bool :=
  match PyDict.get? s.test_sessions test_id with
  | none => true
  | some session =>
      if session.num_items < min_items then false
      else if max_items ≤ session.num_items then true
      else if session.se_ability ≤ target_se then true
      else false

/-- Models the standard normal cumulative distribution function used by
`scipy.stats.norm.cdf`. -/
noncomputable def norm_cdf (x : ℝ) : ℝ :=
  ∫ t in Set.Iic x, Real.exp (-(t ^ 2) / 2) / Real.sqrt (2 * Real.pi)

/-- Models `SSCAdaptiveTesting._ability_to_percentile` (src lines 630-635):
`round(norm.cdf(ability) * 100, 2)`.  Python rounds half to even while
Mathlib `round` rounds half up; the two differ only when the percentile
lands exactly on a half-hundredth, which no claim touches. -/
noncomputable def ability_to_percentile (ability : ℝ) : ℝ :=
  ((round (norm_cdf ability * 100 * 100) : ℤ) : ℝ) / 100

/-- Return value of `get_test_results`: the error dict for a missing session
(again an ordinary return value) or the final-results dict of src
lines 621-628. -/
inductive TestResults where
  | errorDict (msg : String)
  | results (student_id : String) (ability_estimate : ℝ)
      (standard_error : ℝ) (num_items_administered : ℕ)
      (responses : List (String × Bool)) (score_percentile : ℝ)

/-- Models `SSCAdaptiveTesting.get_test_results` (src lines 615-628).
Purely a read; no state change. -/
noncomputable def SSCAdaptiveTesting.get_test_results
    (s : SSCAdaptiveTesting) (test_id : String) : TestResults :=
  match PyDict.get? s.test_sessions test_id with
  | none => TestResults.errorDict "Test session not found"
  | some session =>
      TestResults.results session.student_id session.current_ability
        session.se_ability session.num_items session.responses
        (ability_to_percentile session.current_ability)

/-- The public operations of `SSCAdaptiveTesting`, for stating trace
properties of the session registry. -/
inductive SSCOp where
  | generate_test (test_type : TestType) (user_id : String)
      (user_mastery : PyDict ℝ)
  | get_next_item (test_id : String)
  | submit_response (test_id item_id : String) (is_correct : Bool)
  | should_terminate (test_id : String) (min_items max_items : ℕ)
      (target_se : ℝ)
  | get_test_results (test_id : String)

/-- The state an operation leaves behind.  `should_terminate` and
`get_test_results` only read the state (src lines 585-628). -/
noncomputable def applyOp (opt : (ℝ → ℝ) → ℝ → ℝ)
    (s : SSCAdaptiveTesting) : SSCOp → SSCAdaptiveTesting
  | SSCOp.generate_test t u m => s.generate_test t u m
  | SSCOp.get_next_item test_id => (s.get_next_item test_id).2
  | SSCOp.submit_response test_id item_id c =>
      (SSCAdaptiveTesting.submit_response opt s test_id item_id c).2
  | SSCOp.should_terminate _ _ _ _ => s
  | SSCOp.get_test_results _ => s

/-! ### Helper lemmas about the dict model -/

theorem PyDict.get_set_same {α : Type} (d : PyDict α) (k : String) (v : α) :
    PyDict.get? (PyDict.set d k v) k = some v := by
  induction d with
  | nil => simp [PyDict.set, PyDict.get?]
  | cons hd tl ih =>
      obtain ⟨k0, v0⟩ := hd
      by_cases h : k0 = k
      · simp [PyDict.set, PyDict.get?, h]
      · simp [PyDict.set, PyDict.get?, h, ih]

theorem PyDict.get_set_other {α : Type} (d : PyDict α) (k k' : String) (v : α)
    (hne : k' ≠ k) :
    PyDict.get? (PyDict.set d k v) k' = PyDict.get? d k' := by
  have hkk : ¬ (k = k') := fun h => hne h.symm
  induction d with
  | nil =>
      simp only [PyDict.set, PyDict.get?]
      rw [if_neg hkk]
  | cons hd tl ih =>
      obtain ⟨k0, v0⟩ := hd
      by_cases h : k0 = k
      · subst h
        simp only [PyDict.set, if_pos rfl, PyDict.get?]
        rw [if_neg hkk, if_neg hkk]
      · simp only [PyDict.set, if_neg h, PyDict.get?]
        by_cases h' : k0 = k'
        · rw [if_pos h', if_pos h']
        · rw [if_neg h', if_neg h', ih]

/-- The lazy insertion performed by `get_item_parameters` does not change the
value any later lookup observes: absent ids read back the freshly inserted
defaults, and present ids are untouched. -/
theorem ItemResponseTheory.get_item_parameters_val_touch
    (irt : ItemResponseTheory) (i j : String) :
    ((irt.get_item_parameters i).2).get_item_parameters_val j =
      irt.get_item_parameters_val j := by
  unfold ItemResponseTheory.get_item_parameters
      ItemResponseTheory.get_item_parameters_val
  cases hlook : PyDict.get? irt.item_parameters i with
  | some p => rfl
  | none =>
      by_cases hij : j = i
      · subst hij
        simp [PyDict.get_set_same, hlook]
      · simp [PyDict.get_set_other _ _ _ _ hij]

/-- The first component of `get_item_parameters` is the pure lookup-or-default
value. -/
theorem ItemResponseTheory.get_item_parameters_fst
    (irt : ItemResponseTheory) (i : String) :
    (irt.get_item_parameters i).1 = irt.get_item_parameters_val i := by
  unfold ItemResponseTheory.get_item_parameters
      ItemResponseTheory.get_item_parameters_val
  cases hlook : PyDict.get? irt.item_parameters i <;> simp [hlook]

/-! ### Basic facts about the logistic function -/

theorem expit_pos (x : ℝ) : 0 < expit x := by
  unfold expit
  positivity

theorem expit_lt_one (x : ℝ) : expit x < 1 := by
  unfold expit
  rw [div_lt_one (by positivity)]
  linarith [Real.exp_pos (-x)]

theorem expit_strictMono {x y : ℝ} (h : x < y) : expit x < expit y := by
  unfold expit
  have hxy : Real.exp (-y) < Real.exp (-x) := Real.exp_lt_exp.mpr (by linarith)
  have hy : (0:ℝ) < 1 + Real.exp (-y) := by positivity
  apply div_lt_div_of_pos_left one_pos hy
  linarith

theorem expit_zero : expit 0 = 1/2 := by
  unfold expit
  rw [neg_zero, Real.exp_zero]
  norm_num

/-! ### Lemmas about the selection loop -/

/-- The information value depends only on the looked-up parameters. -/
theorem ItemResponseTheory.item_information_congr
    {irt irt' : ItemResponseTheory} (ability : ℝ) (x : String)
    (h : irt.get_item_parameters_val x = irt'.get_item_parameters_val x) :
    irt.item_information ability x = irt'.item_information ability x := by
  unfold ItemResponseTheory.item_information
  rw [h]

/-- Unfolding equation for the selection loop: the information the source
computes from the freshly fetched parameters is `item_information`. -/
theorem select_loop_cons (ability : ℝ) (irt : ItemResponseTheory)
    (item_id : String) (rest : List String) (best_item : Option String)
    (best_info : ℝ) :
    select_loop ability irt (item_id :: rest) best_item best_info =
      if best_info < irt.item_information ability item_id then
        select_loop ability (irt.get_item_parameters item_id).2 rest
          (some item_id) (irt.item_information ability item_id)
      else
        select_loop ability (irt.get_item_parameters item_id).2 rest
          best_item best_info := by
  simp only [select_loop]
  rw [ItemResponseTheory.get_item_parameters_fst]
  rfl

/-- If every remaining information value is at most the running best value,
the loop never updates, and returns the running best item.  The state
hypothesis lets the loop thread a catalog that extends the original only by
inserted defaults. -/
theorem select_loop_no_update (ability : ℝ) (irt0 : ItemResponseTheory) :
    ∀ (l : List String) (irt : ItemResponseTheory) (best_item : Option String)
      (best_info : ℝ),
      (∀ j, irt.get_item_parameters_val j = irt0.get_item_parameters_val j) →
      (∀ x ∈ l, irt0.item_information ability x ≤ best_info) →
      (select_loop ability irt l best_item best_info).1 = best_item := by
  intro l
  induction l with
  | nil => intro irt best_item best_info _ _; rfl
  | cons x xs ih =>
      intro irt best_item best_info hval hle
      rw [select_loop_cons]
      rw [ItemResponseTheory.item_information_congr ability x (hval x)]
      rw [if_neg (not_lt.mpr (hle x (List.mem_cons_self x xs)))]
      exact ih _ best_item best_info
        (fun j => by
          rw [ItemResponseTheory.get_item_parameters_val_touch, hval j])
        (fun y hy => hle y (List.mem_cons_of_mem x hy))

/-- If the walked list splits as `pre ++ m :: post` where every element of
`pre` has strictly smaller information than `m`, every element of `post` has
at most the information of `m`, and the running best value is below the
information of `m`, the loop ends on `m`. -/
theorem select_loop_first_max (ability : ℝ) (irt0 : ItemResponseTheory)
    (m : String) :
    ∀ (pre : List String) (post : List String) (irt : ItemResponseTheory)
      (best_item : Option String) (best_info : ℝ),
      (∀ j, irt.get_item_parameters_val j = irt0.get_item_parameters_val j) →
      (∀ x ∈ pre,
        irt0.item_information ability x < irt0.item_information ability m) →
      (∀ x ∈ post,
        irt0.item_information ability x ≤ irt0.item_information ability m) →
      best_info < irt0.item_information ability m →
      (select_loop ability irt (pre ++ m :: post) best_item best_info).1 =
        some m := by
  intro pre
  induction pre with
  | nil =>
      intro post irt best_item best_info hval _hpre hpost hb
      rw [List.nil_append, select_loop_cons]
      rw [ItemResponseTheory.item_information_congr ability m (hval m)]
      rw [if_pos hb]
      exact select_loop_no_update ability irt0 post _ (some m) _
        (fun j => by
          rw [ItemResponseTheory.get_item_parameters_val_touch, hval j])
        hpost
  | cons x pre' ih =>
      intro post irt best_item best_info hval hpre hpost hb
      rw [List.cons_append, select_loop_cons]
      rw [ItemResponseTheory.item_information_congr ability x (hval x)]
      have hval' : ∀ j,
          ((irt.get_item_parameters x).2).get_item_parameters_val j =
            irt0.get_item_parameters_val j := fun j => by
        rw [ItemResponseTheory.get_item_parameters_val_touch, hval j]
      have hpre' : ∀ y ∈ pre',
          irt0.item_information ability y < irt0.item_information ability m :=
        fun y hy => hpre y (List.mem_cons_of_mem x hy)
      by_cases hcond :
          best_info < irt0.item_information ability x
      · rw [if_pos hcond]
        exact ih post _ (some x) _ hval' hpre' hpost
          (hpre x (List.mem_cons_self x pre'))
      · rw [if_neg hcond]
        exact ih post _ best_item best_info hval' hpre' hpost hb

/-! ### Claim theorems (C6, C7, C8) -/

/-- C6: `probability_correct_3pl(theta, b, a, c)` equals
`c + (1 - c) / (1 + exp(-a*(theta - b)))` for all inputs, and at
`b = 0, a = 1, c = 0.25, theta = 0` it equals exactly 5/8 = 0.625. -/
theorem probability_correct_3pl_formula :
    (∀ theta b a c : ℝ,
        probability_correct_3pl theta b a c =
          c + (1 - c) / (1 + Real.exp (-(a * (theta - b))))) ∧
      probability_correct_3pl 0 0 1 (1/4) = 5/8 := by
  constructor
  · intro theta b a c
    unfold probability_correct_3pl expit
    rw [mul_one_div]
  · unfold probability_correct_3pl
    rw [show (1:ℝ) * (0 - 0) = 0 by ring, expit_zero]
    norm_num

/-- C7: for fixed `b`, `a > 0` and `0 ≤ c < 1`, the probability lies strictly
between `c` and `1`, and is strictly increasing in `theta`. -/
theorem probability_correct_3pl_bounds_mono
    (b a c : ℝ) (ha : 0 < a) (_hc0 : 0 ≤ c) (hc1 : c < 1) :
    (∀ theta : ℝ,
        c < probability_correct_3pl theta b a c ∧
          probability_correct_3pl theta b a c < 1) ∧
      ∀ theta1 theta2 : ℝ, theta1 < theta2 →
        probability_correct_3pl theta1 b a c <
          probability_correct_3pl theta2 b a c := by
  have hcpos : (0:ℝ) < 1 - c := by linarith
  constructor
  · intro theta
    unfold probability_correct_3pl
    constructor
    · nlinarith [expit_pos (a * (theta - b))]
    · nlinarith [expit_lt_one (a * (theta - b))]
  · intro theta1 theta2 h
    unfold probability_correct_3pl
    have harg : a * (theta1 - b) < a * (theta2 - b) := by nlinarith
    nlinarith [expit_strictMono harg]

/-- C7 witness: instantiation at `b = 0, a = 1, c = 1/2, theta1 = 0, theta2 = 1`. -/
theorem probability_correct_3pl_bounds_mono_witness :
    (0:ℝ) < 1 ∧ (0:ℝ) ≤ 1/2 ∧ (1/2:ℝ) < 1 ∧
      (1/2 < probability_correct_3pl 0 0 1 (1/2) ∧
        probability_correct_3pl 0 0 1 (1/2) < 1) ∧
      probability_correct_3pl 0 0 1 (1/2) < probability_correct_3pl 1 0 1 (1/2) :=
  ⟨by norm_num, by norm_num, by norm_num,
    (probability_correct_3pl_bounds_mono 0 1 (1/2) (by norm_num) (by norm_num)
        (by norm_num)).1 0,
    (probability_correct_3pl_bounds_mono 0 1 (1/2) (by norm_num) (by norm_num)
        (by norm_num)).2 0 1 (by norm_num)⟩

/-- C8 counterexample: `set_item_parameters` accepts a negative discrimination
and a guessing value of 2 without any error, storing them verbatim in the
catalog; no `InvalidParameterError` exists in the source. -/
theorem set_item_parameters_accepts_invalid :
    (ItemResponseTheory.init.set_item_parameters "i1" 0 (-1) 2).item_parameters
        = [("i1", ⟨0, -1, 2⟩)] ∧
      ¬ ((-1:ℝ) > 0) ∧ ¬ ((2:ℝ) < 1) := by
  refine ⟨?_, by norm_num, by norm_num⟩
  simp [ItemResponseTheory.set_item_parameters, ItemResponseTheory.init, PyDict.set]

/-- C8 amended: `set_item_parameters` performs no validation; it always
succeeds, stores exactly the given values under `item_id`, and leaves every
other catalog entry unchanged. -/
theorem set_item_parameters_stores_verbatim
    (irt : ItemResponseTheory) (item_id : String)
    (difficulty discrimination guessing : ℝ) :
    PyDict.get?
        (irt.set_item_parameters item_id difficulty discrimination guessing).item_parameters
        item_id = some ⟨difficulty, discrimination, guessing⟩ ∧
      ∀ other : String, other ≠ item_id →
        PyDict.get?
            (irt.set_item_parameters item_id difficulty discrimination guessing).item_parameters
            other = PyDict.get? irt.item_parameters other := by
  simp only [ItemResponseTheory.set_item_parameters]
  constructor
  · exact PyDict.get_set_same _ _ _
  · intro other hne
    exact PyDict.get_set_other _ _ _ _ hne

/-- C8 amended witness: concrete instantiation on an initially empty catalog. -/
theorem set_item_parameters_stores_verbatim_witness :
    PyDict.get?
        (ItemResponseTheory.init.set_item_parameters "a" 1 2 (1/2)).item_parameters
        "a" = some ⟨1, 2, 1/2⟩ ∧
      ("b" ≠ "a") ∧
      PyDict.get?
          (ItemResponseTheory.init.set_item_parameters "a" 1 2 (1/2)).item_parameters
          "b" = PyDict.get? ItemResponseTheory.init.item_parameters "b" :=
  ⟨(set_item_parameters_stores_verbatim ItemResponseTheory.init "a" 1 2 (1/2)).1,
    by decide,
    (set_item_parameters_stores_verbatim ItemResponseTheory.init "a" 1 2 (1/2)).2
      "b" (by decide)⟩

/-- C4 counterexample: with stored (unvalidated) parameters giving negative
information values, `select_next_item` on the list `["i2", "i1"]` returns
`"i2"` even though `"i1"` attains a strictly greater information value: the
loop starts its running maximum at 0 and updates only on strictly greater
values, so no negative-information item is ever selected and the fallback
returns the first list element, not the argmax. -/
theorem select_next_item_not_argmax :
    (ItemResponseTheory.select_next_item
        ⟨[("i1", ⟨0, 1, 2⟩), ("i2", ⟨0, 1, 3⟩)], []⟩ "s" ["i2", "i1"]).1 =
      Except.ok "i2" ∧
    ItemResponseTheory.item_information
        ⟨[("i1", ⟨0, 1, 2⟩), ("i2", ⟨0, 1, 3⟩)], []⟩
        (ItemResponseTheory.get_student_ability
          ⟨[("i1", ⟨0, 1, 2⟩), ("i2", ⟨0, 1, 3⟩)], []⟩ "s") "i2" <
      ItemResponseTheory.item_information
        ⟨[("i1", ⟨0, 1, 2⟩), ("i2", ⟨0, 1, 3⟩)], []⟩
        (ItemResponseTheory.get_student_ability
          ⟨[("i1", ⟨0, 1, 2⟩), ("i2", ⟨0, 1, 3⟩)], []⟩ "s") "i1" := by
  have hab : ItemResponseTheory.get_student_ability
      ⟨[("i1", ⟨0, 1, 2⟩), ("i2", ⟨0, 1, 3⟩)], []⟩ "s" = 0 := rfl
  have hzero : (1:ℝ) * (0 - 0) = 0 := by norm_num
  have hp1 : ItemResponseTheory.get_item_parameters_val
      ⟨[("i1", ⟨0, 1, 2⟩), ("i2", ⟨0, 1, 3⟩)], []⟩ "i1" = ⟨0, 1, 2⟩ := rfl
  have hp2 : ItemResponseTheory.get_item_parameters_val
      ⟨[("i1", ⟨0, 1, 2⟩), ("i2", ⟨0, 1, 3⟩)], []⟩ "i2" = ⟨0, 1, 3⟩ := rfl
  have hi1 : ItemResponseTheory.item_information
      ⟨[("i1", ⟨0, 1, 2⟩), ("i2", ⟨0, 1, 3⟩)], []⟩ 0 "i1" = -(1/12) := by
    unfold ItemResponseTheory.item_information
    rw [hp1]
    unfold probability_correct_3pl
    norm_num [expit_zero]
  have hi2 : ItemResponseTheory.item_information
      ⟨[("i1", ⟨0, 1, 2⟩), ("i2", ⟨0, 1, 3⟩)], []⟩ 0 "i2" = -(1/8) := by
    unfold ItemResponseTheory.item_information
    rw [hp2]
    unfold probability_correct_3pl
    norm_num [expit_zero]
  have hres : (select_loop
      (ItemResponseTheory.get_student_ability
        ⟨[("i1", ⟨0, 1, 2⟩), ("i2", ⟨0, 1, 3⟩)], []⟩ "s")
      ⟨[("i1", ⟨0, 1, 2⟩), ("i2", ⟨0, 1, 3⟩)], []⟩ ["i2", "i1"] none 0).1 =
      none := by
    apply select_loop_no_update _ ⟨[("i1", ⟨0, 1, 2⟩), ("i2", ⟨0, 1, 3⟩)], []⟩
      _ _ none 0 (fun j => rfl)
    intro y hy
    rw [hab]
    rcases List.mem_cons.mp hy with h | h
    · rw [h, hi2]; norm_num
    · rw [List.mem_singleton.mp h, hi1]; norm_num
  constructor
  · unfold ItemResponseTheory.select_next_item
    simp only [hres]
  · rw [hab, hi1, hi2]
    norm_num

/-- C4 amended: provided the maximal information value over the candidates
is positive and the first candidate attaining it has a nonempty id,
`select_next_item` returns that first maximal candidate; and whenever every
candidate has information at most 0 (in particular, all exactly zero) it
returns the first candidate of the list. -/
theorem select_next_item_first_max
    (irt : ItemResponseTheory) (student_id : String) :
    (∀ (pre : List String) (m : String) (post : List String),
        (∀ x ∈ pre,
          irt.item_information (irt.get_student_ability student_id) x <
            irt.item_information (irt.get_student_ability student_id) m) →
        (∀ x ∈ post,
          irt.item_information (irt.get_student_ability student_id) x ≤
            irt.item_information (irt.get_student_ability student_id) m) →
        0 < irt.item_information (irt.get_student_ability student_id) m →
        m ≠ "" →
        (irt.select_next_item student_id (pre ++ m :: post)).1 =
          Except.ok m) ∧
      ∀ (x : String) (xs : List String),
        (∀ y ∈ x :: xs,
          irt.item_information (irt.get_student_ability student_id) y ≤ 0) →
        (irt.select_next_item student_id (x :: xs)).1 = Except.ok x := by
  constructor
  · intro pre m post hpre hpost hpos hm
    have hres : (select_loop (irt.get_student_ability student_id) irt
        (pre ++ m :: post) none 0).1 = some m :=
      select_loop_first_max _ irt m pre post irt none 0 (fun j => rfl)
        hpre hpost hpos
    unfold ItemResponseTheory.select_next_item
    simp only [hres]
    rw [if_neg hm]
  · intro x xs hle
    have hres : (select_loop (irt.get_student_ability student_id) irt
        (x :: xs) none 0).1 = none :=
      select_loop_no_update _ irt (x :: xs) irt none 0 (fun j => rfl) hle
    unfold ItemResponseTheory.select_next_item
    simp only [hres]

/-- C4 amended witness: on a catalog where item `"b"` has discrimination 2
and item `"a"` falls back to the defaults, at ability 0 the loop selects
`"b"` = the first maximal candidate of `["a", "b"]`. -/
theorem select_next_item_first_max_witness :
    (∀ x ∈ ["a"],
        ItemResponseTheory.item_information ⟨[("b", ⟨0, 2, 1/4⟩)], []⟩
            (ItemResponseTheory.get_student_ability
              ⟨[("b", ⟨0, 2, 1/4⟩)], []⟩ "s") x <
          ItemResponseTheory.item_information ⟨[("b", ⟨0, 2, 1/4⟩)], []⟩
            (ItemResponseTheory.get_student_ability
              ⟨[("b", ⟨0, 2, 1/4⟩)], []⟩ "s") "b") ∧
      0 < ItemResponseTheory.item_information ⟨[("b", ⟨0, 2, 1/4⟩)], []⟩
          (ItemResponseTheory.get_student_ability
            ⟨[("b", ⟨0, 2, 1/4⟩)], []⟩ "s") "b" ∧
      ("b" : String) ≠ "" ∧
      (ItemResponseTheory.select_next_item ⟨[("b", ⟨0, 2, 1/4⟩)], []⟩ "s"
          (["a"] ++ "b" :: [])).1 = Except.ok "b" := by
  have hab : ItemResponseTheory.get_student_ability
      ⟨[("b", ⟨0, 2, 1/4⟩)], []⟩ "s" = 0 := rfl
  have hza : (1:ℝ) * (0 - 0) = 0 := by norm_num
  have hzb : (2:ℝ) * (0 - 0) = 0 := by norm_num
  have hpa : ItemResponseTheory.get_item_parameters_val
      ⟨[("b", ⟨0, 2, 1/4⟩)], []⟩ "a" = ⟨0, 1, 1/4⟩ := rfl
  have hpb : ItemResponseTheory.get_item_parameters_val
      ⟨[("b", ⟨0, 2, 1/4⟩)], []⟩ "b" = ⟨0, 2, 1/4⟩ := rfl
  have hia : ItemResponseTheory.item_information
      ⟨[("b", ⟨0, 2, 1/4⟩)], []⟩ 0 "a" = 3/20 := by
    unfold ItemResponseTheory.item_information
    rw [hpa]
    unfold probability_correct_3pl
    norm_num [expit_zero]
  have hib : ItemResponseTheory.item_information
      ⟨[("b", ⟨0, 2, 1/4⟩)], []⟩ 0 "b" = 3/5 := by
    unfold ItemResponseTheory.item_information
    rw [hpb]
    unfold probability_correct_3pl
    norm_num [expit_zero]
  have hpre : ∀ x ∈ ["a"],
      ItemResponseTheory.item_information ⟨[("b", ⟨0, 2, 1/4⟩)], []⟩
          (ItemResponseTheory.get_student_ability
            ⟨[("b", ⟨0, 2, 1/4⟩)], []⟩ "s") x <
        ItemResponseTheory.item_information ⟨[("b", ⟨0, 2, 1/4⟩)], []⟩
          (ItemResponseTheory.get_student_ability
            ⟨[("b", ⟨0, 2, 1/4⟩)], []⟩ "s") "b" := by
    intro x hx
    rw [List.mem_singleton.mp hx, hab, hia, hib]
    norm_num
  have hpos : 0 < ItemResponseTheory.item_information
      ⟨[("b", ⟨0, 2, 1/4⟩)], []⟩
      (ItemResponseTheory.get_student_ability
        ⟨[("b", ⟨0, 2, 1/4⟩)], []⟩ "s") "b" := by
    rw [hab, hib]; norm_num
  refine ⟨hpre, hpos, by decide, ?_⟩
  exact (select_next_item_first_max ⟨[("b", ⟨0, 2, 1/4⟩)], []⟩ "s").1
    ["a"] "b" [] hpre (fun x hx => absurd hx (List.not_mem_nil x)) hpos
    (by decide)

/-- C5 counterexample: called with an empty candidate list the selector
raises `IndexError` (from `available_items[0]`); the source defines no
`NoItemsAvailableError` anywhere, so the failure is not of that kind. -/
theorem select_next_item_empty_not_noItemsError :
    (ItemResponseTheory.init.select_next_item "s" []).1 =
        Except.error PyErr.indexError ∧
      PyErr.indexError ≠ PyErr.noItemsAvailableError :=
  ⟨rfl, by decide⟩

/-- C5 amended: with an empty candidate list, `select_next_item` fails with
an uncaught `IndexError` — list index out of range on `available_items[0]` —
rather than a dedicated `NoItemsAvailableError`. -/
theorem select_next_item_empty_fails
    (irt : ItemResponseTheory) (student_id : String) :
    (irt.select_next_item student_id []).1 = Except.error PyErr.indexError :=
  rfl

/-- C9: with an empty response list `estimate_ability` returns
`initial_ability` unchanged: the negative log-likelihood is then the
constant zero function, and `scipy.optimize.minimize` with BFGS terminates
at the starting point whenever the objective is constant (its
finite-difference gradient at `x0` is exactly zero, so the very first
convergence check succeeds and `result.x = x0`).  The optimizer is
quantified, constrained exactly by that documented behavior. -/
theorem estimate_ability_empty_responses
    (opt : (ℝ → ℝ) → ℝ → ℝ)
    (hopt : ∀ (f : ℝ → ℝ) (x0 : ℝ), (∀ x, f x = f x0) → opt f x0 = x0)
    (irt : ItemResponseTheory) (initial_ability : ℝ) :
    (irt.estimate_ability opt [] initial_ability).1 = initial_ability := by
  unfold ItemResponseTheory.estimate_ability
  exact hopt _ _ (fun x => rfl)

/-- C9 witness: a concrete optimizer satisfying the contract, applied on the
fresh state at initial ability 7/2. -/
theorem estimate_ability_empty_responses_witness :
    (∀ (f : ℝ → ℝ) (x0 : ℝ), (∀ x, f x = f x0) →
        (fun (_ : ℝ → ℝ) (x0 : ℝ) => x0) f x0 = x0) ∧
      (ItemResponseTheory.init.estimate_ability
          (fun (_ : ℝ → ℝ) (x0 : ℝ) => x0) [] (7/2)).1 = 7/2 :=
  ⟨fun _ _ _ => rfl,
    estimate_ability_empty_responses (fun (_ : ℝ → ℝ) (x0 : ℝ) => x0)
      (fun _ _ _ => rfl) ItemResponseTheory.init (7/2)⟩

/-! ### The session registry is never populated -/

/-- No public operation writes the session registry when it is empty: the
three session operations short-circuit on the failed lookup, and
`generate_test`, `should_terminate`, `get_test_results` never write at
all. -/
theorem applyOp_empty_registry (opt : (ℝ → ℝ) → ℝ → ℝ)
    (s : SSCAdaptiveTesting) (h : s.test_sessions = []) (op : SSCOp) :
    applyOp opt s op = s := by
  cases op with
  | generate_test t u m => rfl
  | get_next_item test_id =>
      simp [applyOp, SSCAdaptiveTesting.get_next_item, h, PyDict.get?]
  | submit_response test_id item_id c =>
      simp [applyOp, SSCAdaptiveTesting.submit_response, h, PyDict.get?]
  | should_terminate _ _ _ _ => rfl
  | get_test_results _ => rfl

/-- Any sequence of public operations leaves the fresh object unchanged. -/
theorem foldl_applyOp_init (opt : (ℝ → ℝ) → ℝ → ℝ) (ops : List SSCOp) :
    ops.foldl (applyOp opt) SSCAdaptiveTesting.init =
      SSCAdaptiveTesting.init := by
  induction ops with
  | nil => rfl
  | cons op rest ih =>
      rw [List.foldl_cons, applyOp_empty_registry opt _ rfl op, ih]

/-- C1: starting from a freshly constructed `SSCAdaptiveTesting`, after any
sequence of public operations the `test_sessions` registry is still empty;
consequently, for every `test_id`, `get_next_item` returns `None`,
`submit_response` and `get_test_results` return the session-not-found error
dict, and `should_terminate` returns `True`. -/
theorem test_sessions_forever_empty (opt : (ℝ → ℝ) → ℝ → ℝ)
    (ops : List SSCOp) :
    ((ops.foldl (applyOp opt) SSCAdaptiveTesting.init).test_sessions = []) ∧
      ∀ (test_id item_id : String) (c : Bool) (mn mx : ℕ) (tse : ℝ),
        ((ops.foldl (applyOp opt) SSCAdaptiveTesting.init).get_next_item
            test_id).1 = Except.ok none ∧
        (SSCAdaptiveTesting.submit_response opt
            (ops.foldl (applyOp opt) SSCAdaptiveTesting.init)
            test_id item_id c).1 =
          SubmitResult.errorDict "Test session not found" ∧
        (ops.foldl (applyOp opt) SSCAdaptiveTesting.init).should_terminate
            test_id mn mx tse = true ∧
        (ops.foldl (applyOp opt) SSCAdaptiveTesting.init).get_test_results
            test_id = TestResults.errorDict "Test session not found" := by
  rw [foldl_applyOp_init]
  exact ⟨rfl, fun _ _ _ _ _ _ => ⟨rfl, rfl, rfl, rfl⟩⟩

/-- C2 counterexample: at the concrete missing id `"t1"` the three session
operations return ordinary values — an error dict from `submit_response`
and `get_test_results`, and the plain boolean `True` from
`should_terminate`, indistinguishable from a legitimate termination signal.
No `SessionNotFoundError` class exists in the source and nothing is
raised. -/
theorem session_not_found_plain_values :
    (SSCAdaptiveTesting.submit_response (fun _ x0 => x0)
        SSCAdaptiveTesting.init "t1" "i1" true).1 =
      SubmitResult.errorDict "Test session not found" ∧
    SSCAdaptiveTesting.init.should_terminate "t1" 10 50 (3/10) = true ∧
    SSCAdaptiveTesting.init.get_test_results "t1" =
      TestResults.errorDict "Test session not found" :=
  ⟨rfl, rfl, rfl⟩

/-- C2 amended: for every `test_id` absent from the registry,
`submit_response` and `get_test_results` return the
`{"error": "Test session not found"}` dict as an ordinary value and
`should_terminate` returns `True`; no exception is raised (no
`SessionNotFoundError` exists in the source). -/
theorem missing_session_error_values (opt : (ℝ → ℝ) → ℝ → ℝ)
    (s : SSCAdaptiveTesting) (test_id : String)
    (h : PyDict.get? s.test_sessions test_id = none) :
    ∀ (item_id : String) (c : Bool) (mn mx : ℕ) (tse : ℝ),
      (SSCAdaptiveTesting.submit_response opt s test_id item_id c).1 =
          SubmitResult.errorDict "Test session not found" ∧
        s.should_terminate test_id mn mx tse = true ∧
        s.get_test_results test_id =
          TestResults.errorDict "Test session not found" := by
  intro item_id c mn mx tse
  refine ⟨?_, ?_, ?_⟩
  · unfold SSCAdaptiveTesting.submit_response
    rw [h]
  · unfold SSCAdaptiveTesting.should_terminate
    rw [h]
  · unfold SSCAdaptiveTesting.get_test_results
    rw [h]

/-- C2 amended witness: the fresh object with test id `"t9"`. -/
theorem missing_session_error_values_witness :
    PyDict.get? SSCAdaptiveTesting.init.test_sessions "t9" = none ∧
      (SSCAdaptiveTesting.submit_response (fun _ x0 => x0)
          SSCAdaptiveTesting.init "t9" "i1" false).1 =
        SubmitResult.errorDict "Test session not found" ∧
      SSCAdaptiveTesting.init.should_terminate "t9" 10 50 (3/10) = true ∧
      SSCAdaptiveTesting.init.get_test_results "t9" =
        TestResults.errorDict "Test session not found" :=
  ⟨rfl,
    missing_session_error_values (fun _ x0 => x0) SSCAdaptiveTesting.init
      "t9" rfl "i1" false 10 50 (3/10)⟩

/-- C3: for a session present in the registry, `should_terminate` is false
below `min_items` regardless of the standard error; at or above `max_items`
it is true; otherwise true exactly when the stored standard error is at
most `target_se`. -/
theorem should_terminate_policy (s : SSCAdaptiveTesting) (test_id : String)
    (session : CATSession)
    (h : PyDict.get? s.test_sessions test_id = some session)
    (min_items max_items : ℕ) (target_se : ℝ) :
    (session.num_items < min_items →
        s.should_terminate test_id min_items max_items target_se = false) ∧
      (min_items ≤ session.num_items → max_items ≤ session.num_items →
        s.should_terminate test_id min_items max_items target_se = true) ∧
      (min_items ≤ session.num_items → session.num_items < max_items →
        session.se_ability ≤ target_se →
        s.should_terminate test_id min_items max_items target_se = true) ∧
      (min_items ≤ session.num_items → session.num_items < max_items →
        target_se < session.se_ability →
        s.should_terminate test_id min_items max_items target_se = false) := by
  unfold SSCAdaptiveTesting.should_terminate
  rw [h]
  dsimp only
  refine ⟨?_, ?_, ?_, ?_⟩
  · intro h1
    rw [if_pos h1]
  · intro h1 h2
    rw [if_neg (not_lt.mpr h1), if_pos h2]
  · intro h1 h2 h3
    rw [if_neg (not_lt.mpr h1), if_neg (not_le.mpr h2), if_pos h3]
  · intro h1 h2 h3
    rw [if_neg (not_lt.mpr h1), if_neg (not_le.mpr h2),
      if_neg (not_le.mpr h3)]

/-- C3 witness: a registry holding one session with 12 administered items
and stored standard error 1/2; with `min_items = 10`, `max_items = 50`,
`target_se = 3/5` the precision criterion fires and the policy says
terminate. -/
theorem should_terminate_policy_witness :
    PyDict.get?
        (SSCAdaptiveTesting.mk ItemResponseTheory.init
          [("t", ⟨"stu", [], [], 12, 0, 1/2⟩)]).test_sessions "t" =
      some ⟨"stu", [], [], 12, 0, 1/2⟩ ∧
    (10 ≤ 12 ∧ 12 < 50) ∧
    SSCAdaptiveTesting.should_terminate
        (SSCAdaptiveTesting.mk ItemResponseTheory.init
          [("t", ⟨"stu", [], [], 12, 0, 1/2⟩)]) "t" 10 50 (3/5) = true :=
  ⟨rfl, ⟨by norm_num, by norm_num⟩,
    (should_terminate_policy
        (SSCAdaptiveTesting.mk ItemResponseTheory.init
          [("t", ⟨"stu", [], [], 12, 0, 1/2⟩)]) "t"
        ⟨"stu", [], [], 12, 0, 1/2⟩ rfl 10 50 (3/5)).2.2.1
      (by norm_num) (by norm_num) (by norm_num)⟩

/-! ### Calibration lemmas -/

/-- A key is present after a dict write when it is the written key or was
already present. -/
theorem PyDict.get_set_isSome {α : Type} (d : PyDict α) (k : String) (v : α)
    (k' : String) (h : k' = k ∨ (PyDict.get? d k').isSome) :
    (PyDict.get? (PyDict.set d k v) k').isSome := by
  by_cases hk : k' = k
  · subst hk
    rw [PyDict.get_set_same]
    rfl
  · rcases h with h | h
    · exact absurd h hk
    · rw [PyDict.get_set_other _ _ _ _ hk]
      exact h

/-- Every item id occurring in the records ends up as a key of the grouped
dict. -/
theorem group_responses_isSome :
    ∀ (recs : List CalibrationRecord) (acc : PyDict (List Bool))
      (id : String),
      (id ∈ recs.map CalibrationRecord.item_id ∨
        (PyDict.get? acc id).isSome) →
      (PyDict.get? (group_responses recs acc) id).isSome := by
  intro recs
  induction recs with
  | nil =>
      intro acc id h
      rcases h with h | h
      · exact absurd h (by simp)
      · simpa [group_responses] using h
  | cons r rest ih =>
      intro acc id h
      rcases h with h | h
      · rw [List.map_cons] at h
        rcases List.mem_cons.mp h with h | h
        · exact ih _ id (Or.inr (PyDict.get_set_isSome _ _ _ _ (Or.inl h)))
        · exact ih _ id (Or.inl h)
      · exact ih _ id (Or.inr (PyDict.get_set_isSome _ _ _ _ (Or.inr h)))

/-- The calibration step stores the entry of its own key with the default
discrimination 1.0 and guessing 0.25. -/
theorem calibrate_step_get_self (st : ItemResponseTheory)
    (entry : String × List Bool) :
    ∃ d : ℝ, PyDict.get? (calibrate_step st entry).item_parameters entry.1 =
      some ⟨d, 1, 1/4⟩ := by
  unfold calibrate_step ItemResponseTheory.set_item_parameters
  exact ⟨_, PyDict.get_set_same _ _ _⟩

/-- The calibration step leaves entries of other keys unchanged. -/
theorem calibrate_step_frame (st : ItemResponseTheory)
    (entry : String × List Bool) (j : String) (hj : j ≠ entry.1) :
    PyDict.get? (calibrate_step st entry).item_parameters j =
      PyDict.get? st.item_parameters j := by
  unfold calibrate_step ItemResponseTheory.set_item_parameters
  exact PyDict.get_set_other _ _ _ _ hj

/-- Folding the calibration step over groups not containing `id` leaves the
entry of `id` unchanged. -/
theorem foldl_calibrate_frame :
    ∀ (l : PyDict (List Bool)) (st : ItemResponseTheory) (id : String),
      PyDict.get? l id = none →
      PyDict.get? ((l.foldl calibrate_step st).item_parameters) id =
        PyDict.get? st.item_parameters id := by
  intro l
  induction l with
  | nil => intro st id _; rfl
  | cons e rest ih =>
      intro st id hid
      obtain ⟨e1, e2⟩ := e
      simp only [PyDict.get?] at hid
      by_cases h : e1 = id
      · rw [if_pos h] at hid
        exact absurd hid (by simp)
      · rw [if_neg h] at hid
        rw [List.foldl_cons, ih _ id hid]
        exact calibrate_step_frame st (e1, e2) id (fun hh => h hh.symm)

/-- Folding the calibration step over groups containing `id` produces an
entry for `id` with discrimination 1.0 and guessing 0.25. -/
theorem foldl_calibrate_mem :
    ∀ (l : PyDict (List Bool)) (st : ItemResponseTheory) (id : String),
      (PyDict.get? l id).isSome →
      ∃ d : ℝ,
        PyDict.get? ((l.foldl calibrate_step st).item_parameters) id =
          some ⟨d, 1, 1/4⟩ := by
  intro l
  induction l with
  | nil =>
      intro st id h
      exact absurd h (by simp [PyDict.get?])
  | cons e rest ih =>
      intro st id h
      by_cases hrest : (PyDict.get? rest id).isSome
      · rw [List.foldl_cons]
        exact ih _ id hrest
      · obtain ⟨e1, e2⟩ := e
        simp only [PyDict.get?] at h
        by_cases he : e1 = id
        · subst he
          rw [List.foldl_cons,
            foldl_calibrate_frame rest _ e1
              (Option.not_isSome_iff_eq_none.mp hrest)]
          exact calibrate_step_get_self st (e1, e2)
        · rw [if_neg he] at h
          exact absurd h hrest

/-- C10: after `calibrate_items`, every item id appearing in the records has
a catalog entry with discrimination 1.0 and guessing 0.25, regardless of
whatever values were stored for it before (for example via
`set_item_parameters`): calibration overwrites those fields. -/
theorem calibrate_items_overwrites (irt : ItemResponseTheory)
    (response_data : List CalibrationRecord) (item_id : String)
    (h : item_id ∈ response_data.map CalibrationRecord.item_id) :
    ∃ d : ℝ,
      PyDict.get? ((irt.calibrate_items response_data).item_parameters)
        item_id = some ⟨d, 1, 1/4⟩ := by
  unfold ItemResponseTheory.calibrate_items
  exact foldl_calibrate_mem _ irt item_id
    (group_responses_isSome response_data [] item_id (Or.inl h))

/-- C10 witness: an item previously stored with discrimination 9 and
guessing 9 is recalibrated from one record back to discrimination 1 and
guessing 1/4. -/
theorem calibrate_items_overwrites_witness :
    ("q1" ∈ ([⟨"q1", true⟩] : List CalibrationRecord).map
        CalibrationRecord.item_id) ∧
      ∃ d : ℝ,
        PyDict.get?
          ((ItemResponseTheory.calibrate_items ⟨[("q1", ⟨5, 9, 9⟩)], []⟩
              [⟨"q1", true⟩]).item_parameters) "q1" = some ⟨d, 1, 1/4⟩ :=
  ⟨by simp,
    calibrate_items_overwrites ⟨[("q1", ⟨5, 9, 9⟩)], []⟩ [⟨"q1", true⟩]
      "q1" (by simp)⟩

end StudyGPT
